import Mathlib

/-!
Verification development for the EVEmu networking core (TCPConnection) and its
exception objects (Exceptions.cpp).

The repository provides the TCPConnection class header (declarations and
documentation) and the spec; the TCPConnection implementation file itself is not
part of the sources, so its behaviour is modelled from the spec, faithfully to
the spec's words.  Exceptions.cpp is present and is embedded directly; its
collaborator container types (PyDict, PyTuple, PyObjectEx_Type1) are declared
elsewhere and are modelled with standard dictionary/tuple semantics.

Bytes are modelled as natural numbers; byte buffers as lists of bytes.
-/

/-- The four connection states, from TCPConnection.h (state_t). -/
inductive state_t where
  | STATE_DISCONNECTED
  | STATE_CONNECTING
  | STATE_CONNECTED
  | STATE_DISCONNECTING
deriving DecidableEq, Repr

/-- Modelled from the spec: the Connection aggregate of TCPConnection.h.
mSock is whether a socket handle exists (the Socket pointer is non-null),
mSendBuf / mRecvBuf are the used portions of the Send Queue and Receive
Buffer, loopRunning records whether the Worker Loop has been started. -/
structure TCPConnection where
  mSock : Bool
  mSockState : state_t
  mrIP : Nat
  mrPort : Nat
  mSendBuf : List Nat
  mRecvBuf : List Nat
  loopRunning : Bool
deriving DecidableEq, Repr

namespace TCPConnection

/-- Modelled from the spec: the public default constructor
("Creates new connection in STATE_DISCONNECTED"); the implementation file is
not in the sources.  No socket handle, empty Send Queue, empty Receive
Buffer, no worker task. -/
def new : TCPConnection :=
  { mSock := false
    mSockState := state_t.STATE_DISCONNECTED
    mrIP := 0
    mrPort := 0
    mSendBuf := []
    mRecvBuf := []
    loopRunning := false }

/-- GetState, from TCPConnection.h: returns the current state. -/
def GetState (c : TCPConnection) : state_t := c.mSockState

/-- Modelled from the spec: ServerSendQueuePushEnd appends a span to the
Send Queue tail (the implementation file is not in the sources). -/
def ServerSendQueuePushEnd (c : TCPConnection) (data : List Nat) : TCPConnection :=
  { c with mSendBuf := c.mSendBuf ++ data }

/-- Modelled from the spec: the composite header+body push-back overload of
ServerSendQueuePushEnd, logically concatenating the two source spans. -/
def ServerSendQueuePushEnd2 (c : TCPConnection)
    (head_data data : List Nat) : TCPConnection :=
  { c with mSendBuf := c.mSendBuf ++ head_data ++ data }

/-- Modelled from the spec: ServerSendQueuePushFront inserts a span ahead of
all currently queued bytes (priority push). -/
def ServerSendQueuePushFront (c : TCPConnection) (data : List Nat) : TCPConnection :=
  { c with mSendBuf := data ++ c.mSendBuf }

/-- Modelled from the spec: ServerSendQueuePop hands the caller ownership of
the queued bytes and resets the queue's used length; returns none when the
queue is empty. -/
def ServerSendQueuePop (c : TCPConnection) : Option (List Nat) × TCPConnection :=
  if c.mSendBuf = [] then (none, c)
  else (some c.mSendBuf, { c with mSendBuf := [] })

/-- Modelled from the spec: Send enqueues data to be sent.  It fails without
enqueuing when the Connection is Disconnected, and otherwise appends the
bytes to the Send Queue tail and reports acceptance. -/
def Send (c : TCPConnection) (data : List Nat) : Bool × TCPConnection :=
  if c.mSockState = state_t.STATE_DISCONNECTED then (false, c)
  else (true, ServerSendQueuePushEnd c data)

/-- Modelled from the spec: Disconnect schedules a cooperative disconnect;
it sets the state to Disconnecting if currently Connected and is a no-op
otherwise (in particular when already disconnected or disconnecting). -/
def Disconnect (c : TCPConnection) : TCPConnection :=
  if c.mSockState = state_t.STATE_CONNECTED then
    { c with mSockState := state_t.STATE_DISCONNECTING }
  else c

/-- Modelled from the spec: DoDisconnect is the forced teardown: it closes
and releases the socket, moves to Disconnected and clears both buffers. -/
def DoDisconnect (c : TCPConnection) : TCPConnection :=
  { c with
    mSock := false
    mSockState := state_t.STATE_DISCONNECTED
    mSendBuf := []
    mRecvBuf := [] }

/-- Modelled from the spec: synchronous Connect.  The outcome of the
underlying socket connect primitive is passed in as ok (the call blocks until
it is known, so the result is a function of it).  On success the Connection is
Connected and the Worker Loop is started; on failure the socket is released,
the state is Disconnected and an error description is produced for errbuf. -/
def Connect (c : TCPConnection) (rIP rPort : Nat) (ok : Bool) :
    Bool × TCPConnection × Option String :=
  if ok then
    (true,
      { c with
        mSock := true
        mSockState := state_t.STATE_CONNECTED
        mrIP := rIP
        mrPort := rPort
        loopRunning := true },
      none)
  else
    (false,
      { c with
        mSock := false
        mSockState := state_t.STATE_DISCONNECTED
        mrIP := rIP
        mrPort := rPort },
      some "Unable to connect")

/-- Modelled from the spec: AsyncConnect schedules an asynchronous connect:
it opens the socket resource, moves a Disconnected instance to Connecting and
starts the background machinery; on a non-Disconnected instance it is a
no-op (the spec leaves the reconnect policy open, choosing no-op). -/
def AsyncConnect (c : TCPConnection) (rIP rPort : Nat) : TCPConnection :=
  if c.mSockState = state_t.STATE_DISCONNECTED then
    { c with
      mSock := true
      mSockState := state_t.STATE_CONNECTING
      mrIP := rIP
      mrPort := rPort
      loopRunning := true }
  else c

/-- The socket invariant from the spec: a socket handle exists if and only if
the state is Connecting, Connected or Disconnecting. -/
def sockInvariant (c : TCPConnection) : Prop :=
  c.mSock = true ↔
    (c.mSockState = state_t.STATE_CONNECTING ∨
     c.mSockState = state_t.STATE_CONNECTED ∨
     c.mSockState = state_t.STATE_DISCONNECTING)

instance (c : TCPConnection) : Decidable (sockInvariant c) := by
  unfold sockInvariant; infer_instance

end TCPConnection

/-- Modelled from the spec: the observable state of one Worker Loop run — the
Connection itself together with the bytes already handed to the socket. -/
structure LoopState where
  conn : TCPConnection
  sent : List Nat
deriving DecidableEq, Repr

/-- Modelled from the spec: the environment inputs of one Worker Loop
iteration — how many queued bytes the socket currently accepts, the bytes
available from the socket, how many accumulated bytes the protocol decoder
consumes, and whether the decoder succeeded. -/
structure LoopInput where
  accept : Nat
  incoming : List Nat
  consumed : Nat
  decodeOk : Bool
deriving DecidableEq, Repr

/-- Modelled from the spec: one iteration of the Worker Loop
(TCPConnectionLoop body; the implementation file is not in the sources).
Step 1 drains as much of the Send Queue as the socket accepts; step 2 pulls
available bytes into the Receive Buffer, enforcing the TCPCONN_RECVBUF_LIMIT
bound (the limit is the first argument) with forced teardown on overflow;
steps 3-4 run the decoder and tear down on a decoder error; step 5 completes
a pending disconnect once the Send Queue is empty.  A loop whose Connection
is already Disconnected has exited and does nothing. -/
def loopIter (limit : Nat) (s : LoopState) (i : LoopInput) : LoopState :=
  if s.conn.mSockState = state_t.STATE_DISCONNECTED then s
  else
    let sent : List Nat := s.sent ++ s.conn.mSendBuf.take i.accept
    let c : TCPConnection := { s.conn with mSendBuf := s.conn.mSendBuf.drop i.accept }
    if limit < (c.mRecvBuf ++ i.incoming).length then
      { conn := c.DoDisconnect, sent := sent }
    else if i.decodeOk = false then
      { conn := c.DoDisconnect, sent := sent }
    else
      let c2 : TCPConnection :=
        { c with mRecvBuf := (c.mRecvBuf ++ i.incoming).drop i.consumed }
      if c2.mSockState = state_t.STATE_DISCONNECTING then
        if c2.mSendBuf = [] then
          { conn := c2.DoDisconnect, sent := sent }
        else { conn := c2, sent := sent }
      else { conn := c2, sent := sent }

/-- Modelled from the spec: the events a Connection undergoes while the
Worker Loop runs — loop iterations interleaved with caller-thread Send and
Disconnect requests. -/
inductive ConnEvent where
  | iter (i : LoopInput)
  | send (bs : List Nat)
  | disconnect
deriving DecidableEq, Repr

/-- Modelled from the spec: the effect of one event on the loop state. -/
def connStep (limit : Nat) (s : LoopState) (e : ConnEvent) : LoopState :=
  match e with
  | ConnEvent.iter i => loopIter limit s i
  | ConnEvent.send bs => { s with conn := (s.conn.Send bs).2 }
  | ConnEvent.disconnect => { s with conn := s.conn.Disconnect }

/-- A run of the Connection under a sequence of events. -/
def connRun (limit : Nat) (s : LoopState) (es : List ConnEvent) : LoopState :=
  es.foldl (connStep limit) s

/-- An event is quiet when it cannot trigger an error teardown: loop
iterations bring no incoming bytes and report decoder success; caller events
are always quiet. -/
def quietEvent : ConnEvent → Prop
  | ConnEvent.iter i => i.incoming = [] ∧ i.decodeOk = true
  | ConnEvent.send _ => True
  | ConnEvent.disconnect => True

/-- The graceful-disconnect run invariant: the bytes queued at the time of
the disconnect request are a prefix of (bytes handed to the socket ++ bytes
still queued); a Disconnected connection has an empty queue; the Receive
Buffer stays within the limit. -/
def gracefulInv (limit : Nat) (q : List Nat) (s : LoopState) : Prop :=
  q <+: s.sent ++ s.conn.mSendBuf ∧
  (s.conn.mSockState = state_t.STATE_DISCONNECTED → s.conn.mSendBuf = []) ∧
  s.conn.mRecvBuf.length ≤ limit

theorem connStep_preserves_gracefulInv (limit : Nat) (q : List Nat) (s : LoopState)
    (e : ConnEvent) (hqe : quietEvent e) (h : gracefulInv limit q s) :
    gracefulInv limit q (connStep limit s e) := by
  obtain ⟨h1, h2, h3⟩ := h
  cases e with
  | send bs =>
      simp only [connStep, TCPConnection.Send]
      by_cases hst : s.conn.mSockState = state_t.STATE_DISCONNECTED
      · simp only [hst, if_pos rfl]
        exact ⟨h1, h2, h3⟩
      · simp only [if_neg hst, TCPConnection.ServerSendQueuePushEnd]
        refine ⟨?_, ?_, h3⟩
        · have hext : (s.sent ++ s.conn.mSendBuf) <+:
              s.sent ++ (s.conn.mSendBuf ++ bs) := by
            rw [← List.append_assoc]
            exact List.prefix_append _ _
          exact h1.trans hext
        · intro hd; exact absurd hd hst
  | disconnect =>
      simp only [connStep, TCPConnection.Disconnect]
      by_cases hst : s.conn.mSockState = state_t.STATE_CONNECTED
      · simp only [hst, if_pos rfl]
        exact ⟨h1, by intro hd; exact absurd hd (by simp), h3⟩
      · simp only [if_neg hst]
        exact ⟨h1, h2, h3⟩
  | iter i =>
      obtain ⟨hin, hok⟩ := hqe
      simp only [connStep, loopIter]
      by_cases hd : s.conn.mSockState = state_t.STATE_DISCONNECTED
      · simp only [hd, if_pos rfl]
        exact ⟨h1, h2, h3⟩
      · have hno : ¬ limit <
            (({ s.conn with mSendBuf := s.conn.mSendBuf.drop i.accept } :
              TCPConnection).mRecvBuf ++ i.incoming).length := by
          simp only [hin, List.append_nil]
          exact Nat.not_lt.mpr h3
        have hokne : ¬ i.decodeOk = false := by simp [hok]
        simp only [if_neg hd, if_neg hno, if_neg hokne]
        have hsplit : (s.sent ++ s.conn.mSendBuf.take i.accept) ++
            s.conn.mSendBuf.drop i.accept = s.sent ++ s.conn.mSendBuf := by
          rw [List.append_assoc, List.take_append_drop]
        have hlen : ((s.conn.mRecvBuf ++ i.incoming).drop i.consumed).length ≤ limit := by
          simp only [hin, List.append_nil, List.length_drop]
          omega
        by_cases hdc : s.conn.mSockState = state_t.STATE_DISCONNECTING
        · by_cases hemp : s.conn.mSendBuf.drop i.accept = []
          · simp only [hdc, hemp, if_pos rfl, TCPConnection.DoDisconnect]
            refine ⟨?_, by intro _; rfl, by simp⟩
            have hpre : q <+: (s.sent ++ s.conn.mSendBuf.take i.accept) ++
                s.conn.mSendBuf.drop i.accept := by rw [hsplit]; exact h1
            simpa [hemp] using hpre
          · simp only [hdc, if_pos rfl, if_neg hemp, ite_self]
            refine ⟨?_, by intro hx; exact absurd hx (by simp [hdc]), hlen⟩
            rw [hsplit]; exact h1
        · simp only [if_neg hdc, ite_self]
          refine ⟨?_, by intro hx; exact absurd hx hd, hlen⟩
          rw [hsplit]; exact h1

theorem connRun_preserves_gracefulInv (limit : Nat) (q : List Nat)
    (es : List ConnEvent) :
    ∀ s : LoopState, (∀ e ∈ es, quietEvent e) → gracefulInv limit q s →
      gracefulInv limit q (connRun limit s es) := by
  induction es with
  | nil => intro s _ h; exact h
  | cons e es ih =>
      intro s hq h
      have hstep := connStep_preserves_gracefulInv limit q s e (hq e (by simp)) h
      have := ih (connStep limit s e)
        (fun e' he' => hq e' (by simp [he'])) hstep
      simpa [connRun, List.foldl] using this

/-- A concrete connected Connection, used as input for witnesses. -/
def sampleConnected : TCPConnection :=
  { mSock := true
    mSockState := state_t.STATE_CONNECTED
    mrIP := 1
    mrPort := 2
    mSendBuf := [10, 20]
    mRecvBuf := []
    loopRunning := true }

/-- Claim C1: for a Connected connection, Disconnect sets the state to
Disconnecting (and is a no-op on a Disconnected or Disconnecting one); along
any error-free run of the Worker Loop the state never becomes Disconnected
before every byte queued at the time of the call has been handed to the
socket, and once the queue drains the state becomes Disconnected with the
socket closed. -/
theorem C1_graceful_disconnect (limit : Nat) (c : TCPConnection)
    (hst : c.mSockState = state_t.STATE_CONNECTED)
    (hrv : c.mRecvBuf.length ≤ limit) :
    c.Disconnect.mSockState = state_t.STATE_DISCONNECTING ∧
    (∀ c₂ : TCPConnection,
      c₂.mSockState = state_t.STATE_DISCONNECTED ∨
        c₂.mSockState = state_t.STATE_DISCONNECTING → c₂.Disconnect = c₂) ∧
    (∀ es : List ConnEvent, (∀ e ∈ es, quietEvent e) →
      (connRun limit ⟨c.Disconnect, []⟩ es).conn.mSockState =
        state_t.STATE_DISCONNECTED →
      c.mSendBuf <+: (connRun limit ⟨c.Disconnect, []⟩ es).sent) ∧
    (∃ es : List ConnEvent, (∀ e ∈ es, quietEvent e) ∧
      (connRun limit ⟨c.Disconnect, []⟩ es).conn.mSockState =
        state_t.STATE_DISCONNECTED ∧
      (connRun limit ⟨c.Disconnect, []⟩ es).conn.mSock = false ∧
      (connRun limit ⟨c.Disconnect, []⟩ es).sent = c.mSendBuf) := by
  have hdisc : c.Disconnect = { c with mSockState := state_t.STATE_DISCONNECTING } := by
    simp [TCPConnection.Disconnect, hst]
  refine ⟨by simp [hdisc], ?_, ?_, ?_⟩
  · intro c₂ h
    rcases h with h | h <;> simp [TCPConnection.Disconnect, h]
  · intro es hq hdone
    have hinv0 : gracefulInv limit c.mSendBuf ⟨c.Disconnect, []⟩ := by
      refine ⟨by simp [hdisc], ?_, by simpa [hdisc] using hrv⟩
      intro hx
      rw [hdisc] at hx
      simp at hx
    obtain ⟨p1, p2, p3⟩ := connRun_preserves_gracefulInv limit c.mSendBuf es _ hq hinv0
    have hempq := p2 hdone
    rw [hempq, List.append_nil] at p1
    exact p1
  · refine ⟨[ConnEvent.iter ⟨c.mSendBuf.length, [], 0, true⟩],
      by simp [quietEvent], ?_, ?_, ?_⟩ <;>
    simp [connRun, connStep, loopIter, hdisc, TCPConnection.DoDisconnect,
      List.take_length, List.drop_length, Nat.not_lt.mpr hrv]

theorem C1_witness :
    (TCPConnection.Disconnect sampleConnected).mSockState =
      state_t.STATE_DISCONNECTING :=
  (C1_graceful_disconnect 8 sampleConnected rfl (by decide)).1

/-- Claim C2: Send returns false and leaves the Send Queue unchanged whenever
the Connection is Disconnected — in particular after a completed disconnect
(DoDisconnect) — and otherwise appends exactly the given bytes to the queue
tail and returns true. -/
theorem C2_send_contract (c : TCPConnection) (data : List Nat) :
    (c.mSockState = state_t.STATE_DISCONNECTED →
      (c.Send data).1 = false ∧ (c.Send data).2 = c) ∧
    (c.mSockState ≠ state_t.STATE_DISCONNECTED →
      (c.Send data).1 = true ∧
      (c.Send data).2 = { c with mSendBuf := c.mSendBuf ++ data }) ∧
    c.DoDisconnect.Send data = (false, c.DoDisconnect) := by
  refine ⟨?_, ?_, ?_⟩
  · intro h; simp [TCPConnection.Send, h]
  · intro h
    simp [TCPConnection.Send, h, TCPConnection.ServerSendQueuePushEnd]
  · simp [TCPConnection.Send, TCPConnection.DoDisconnect]

theorem C2_witness :
    (TCPConnection.Send TCPConnection.new [5]).1 = false ∧
    (TCPConnection.Send sampleConnected [5]).1 = true :=
  ⟨((C2_send_contract TCPConnection.new [5]).1 rfl).1,
   ((C2_send_contract sampleConnected [5]).2.1 (by decide)).1⟩

/-- Pushing a list of spans onto the Send Queue tail, in order. -/
def pushAllEnd (c : TCPConnection) (spans : List (List Nat)) : TCPConnection :=
  spans.foldl TCPConnection.ServerSendQueuePushEnd c

theorem pushAllEnd_eq (spans : List (List Nat)) :
    ∀ c : TCPConnection,
      pushAllEnd c spans = { c with mSendBuf := c.mSendBuf ++ spans.flatten } := by
  induction spans with
  | nil => intro c; cases c; simp [pushAllEnd]
  | cons sp spans ih =>
      intro c
      have hstep : pushAllEnd c (sp :: spans) =
          pushAllEnd (c.ServerSendQueuePushEnd sp) spans := rfl
      rw [hstep, ih]
      cases c
      simp [TCPConnection.ServerSendQueuePushEnd]

/-- Claim C3: normal pushes enter the Send Queue in order, so the queue holds
the concatenation of the spans in enqueue order; a priority push p over
already-queued normal bytes n yields queue (and hence transmission) order
p ++ n, and a full drain by the Worker Loop hands exactly p ++ n to the
socket. -/
theorem C3_send_order (limit : Nat) (c : TCPConnection)
    (hq : c.mSendBuf = []) (hst : c.mSockState = state_t.STATE_CONNECTED)
    (hrv : c.mRecvBuf = [])
    (spans : List (List Nat)) (p : List Nat) :
    (pushAllEnd c spans).mSendBuf = spans.flatten ∧
    ((pushAllEnd c spans).ServerSendQueuePushFront p).mSendBuf =
      p ++ spans.flatten ∧
    (loopIter limit ⟨(pushAllEnd c spans).ServerSendQueuePushFront p, []⟩
      ⟨(p ++ spans.flatten).length, [], 0, true⟩).sent = p ++ spans.flatten := by
  have he := pushAllEnd_eq spans c
  refine ⟨by rw [he]; simp [hq], ?_, ?_⟩
  · rw [he]; simp [TCPConnection.ServerSendQueuePushFront, hq]
  · rw [he]
    simp [TCPConnection.ServerSendQueuePushFront, loopIter, hq, hst, hrv,
      List.take_length]

theorem C3_witness :
    (pushAllEnd { sampleConnected with mSendBuf := [] } [[1], [2, 3]]).mSendBuf =
      [1, 2, 3] :=
  (C3_send_order 4 { sampleConnected with mSendBuf := [] } rfl rfl rfl
    [[1], [2, 3]] [9]).1

/-- Claim C4: after every public operation (constructor, Connect,
AsyncConnect, Disconnect, Send, GetState) the socket iff-state invariant
holds: a socket handle exists if and only if the state is Connecting,
Connected or Disconnecting. -/
theorem C4_socket_invariant (c : TCPConnection) (h : c.sockInvariant) :
    TCPConnection.new.sockInvariant ∧
    (∀ rIP rPort : Nat, ∀ ok : Bool, ((c.Connect rIP rPort ok).2.1).sockInvariant) ∧
    (∀ rIP rPort : Nat, (c.AsyncConnect rIP rPort).sockInvariant) ∧
    c.Disconnect.sockInvariant ∧
    (∀ data : List Nat, ((c.Send data).2).sockInvariant) ∧
    c.GetState = c.mSockState := by
  refine ⟨by decide, ?_, ?_, ?_, ?_, rfl⟩
  · intro rIP rPort ok
    cases ok <;> simp [TCPConnection.Connect, TCPConnection.sockInvariant]
  · intro rIP rPort
    by_cases hd : c.mSockState = state_t.STATE_DISCONNECTED
    · simp [TCPConnection.AsyncConnect, hd, TCPConnection.sockInvariant]
    · simpa [TCPConnection.AsyncConnect, hd] using h
  · by_cases hc : c.mSockState = state_t.STATE_CONNECTED
    · have hs : c.mSock = true := h.mpr (Or.inr (Or.inl hc))
      simp [TCPConnection.Disconnect, hc, TCPConnection.sockInvariant, hs]
    · simpa [TCPConnection.Disconnect, hc] using h
  · intro data
    by_cases hd : c.mSockState = state_t.STATE_DISCONNECTED
    · simpa [TCPConnection.Send, hd] using h
    · simpa [TCPConnection.Send, hd, TCPConnection.ServerSendQueuePushEnd,
        TCPConnection.sockInvariant] using h

theorem C4_witness : (TCPConnection.Disconnect sampleConnected).sockInvariant :=
  (C4_socket_invariant sampleConnected (by decide)).2.2.2.1

/-- Claim C5: the synchronous Connect returns only once the outcome of the
connect primitive is known (the result equals that outcome); on success the
state is Connected and the Worker Loop has been started, and on failure the
state is Disconnected, the socket is released and an error description has
been produced for errbuf. -/
theorem C5_sync_connect (c : TCPConnection) (rIP rPort : Nat) (ok : Bool) :
    ((c.Connect rIP rPort ok).1 = true →
      (c.Connect rIP rPort ok).2.1.mSockState = state_t.STATE_CONNECTED ∧
      (c.Connect rIP rPort ok).2.1.loopRunning = true) ∧
    ((c.Connect rIP rPort ok).1 = false →
      (c.Connect rIP rPort ok).2.1.mSockState = state_t.STATE_DISCONNECTED ∧
      (c.Connect rIP rPort ok).2.1.mSock = false ∧
      ((c.Connect rIP rPort ok).2.2).isSome = true) ∧
    (c.Connect rIP rPort ok).1 = ok := by
  cases ok <;> simp [TCPConnection.Connect]

theorem C5_witness :
    (TCPConnection.Connect TCPConnection.new 1 2 true).2.1.mSockState =
      state_t.STATE_CONNECTED ∧
    (TCPConnection.Connect TCPConnection.new 1 2 false).2.1.mSockState =
      state_t.STATE_DISCONNECTED :=
  ⟨((C5_sync_connect TCPConnection.new 1 2 true).1 rfl).1,
   ((C5_sync_connect TCPConnection.new 1 2 false).2.1 rfl).1⟩

/-- Claim C6: whenever the accumulated unconsumed Receive Buffer bytes would
exceed TCPCONN_RECVBUF_LIMIT, the Worker Loop iteration forcibly tears the
connection down: the state ends Disconnected, the socket is released and the
buffers are cleared — the overflowing bytes are neither kept nor handed to
the decoder. -/
theorem C6_recv_limit (limit : Nat) (s : LoopState) (i : LoopInput)
    (hact : s.conn.mSockState ≠ state_t.STATE_DISCONNECTED)
    (hover : limit < (s.conn.mRecvBuf ++ i.incoming).length) :
    (loopIter limit s i).conn.mSockState = state_t.STATE_DISCONNECTED ∧
    (loopIter limit s i).conn.mSock = false ∧
    (loopIter limit s i).conn.mRecvBuf = [] ∧
    (loopIter limit s i).conn.mSendBuf = [] ∧
    (loopIter limit s i).conn = s.conn.DoDisconnect := by
  have hiter : loopIter limit s i =
      { conn := ({ s.conn with mSendBuf := s.conn.mSendBuf.drop i.accept} :
          TCPConnection).DoDisconnect,
        sent := s.sent ++ s.conn.mSendBuf.take i.accept } := by
    simp only [loopIter, if_neg hact]
    rw [if_pos (by simpa using hover)]
  rw [hiter]
  simp [TCPConnection.DoDisconnect]

theorem C6_witness :
    (loopIter 3 ⟨sampleConnected, []⟩
      ⟨0, [1, 2, 3, 4, 5], 0, true⟩).conn.mSockState =
      state_t.STATE_DISCONNECTED :=
  (C6_recv_limit 3 ⟨sampleConnected, []⟩ ⟨0, [1, 2, 3, 4, 5], 0, true⟩
    (by decide) (by decide)).1

/-- Claim C8: a Connection built by the public default constructor starts
Disconnected, with no socket handle, an empty Send Queue and an empty
Receive Buffer, and already satisfies the socket iff-state invariant. -/
theorem C8_constructor_state :
    TCPConnection.new.mSockState = state_t.STATE_DISCONNECTED ∧
    TCPConnection.new.mSock = false ∧
    TCPConnection.new.mSendBuf = [] ∧
    TCPConnection.new.mRecvBuf = [] ∧
    TCPConnection.new.sockInvariant :=
  ⟨rfl, rfl, rfl, rfl, by decide⟩


/-- Modelled from the spec: the synchronization state of one Connection's
worker machinery — whether the exclusive-run marker (the mMLoopRunning
mutex) is held, and how many tasks are currently executing the loop body
(TCPConnectionLoop). -/
structure LoopSync where
  marker : Bool
  running : Nat
deriving DecidableEq, Repr

/-- Modelled from the spec: the transitions of the worker-task machinery.
A task may begin executing the loop body only by first acquiring the
exclusive-run marker, which must be free; a start request made while the
marker is held is rejected (a no-op); a running body releases the marker
when it exits. -/
inductive LoopSyncStep : LoopSync → LoopSync → Prop where
  | enter (s : LoopSync) : s.marker = false →
      LoopSyncStep s { marker := true, running := s.running + 1 }
  | leave (s : LoopSync) (r : Nat) : s.running = r + 1 →
      LoopSyncStep s { marker := false, running := r }
  | reject (s : LoopSync) : s.marker = true → LoopSyncStep s s

/-- States of the worker machinery reachable from the initial state (marker
free, no task running). -/
inductive LoopSyncReachable : LoopSync → Prop where
  | init : LoopSyncReachable { marker := false, running := 0 }
  | step (s s' : LoopSync) : LoopSyncReachable s → LoopSyncStep s s' →
      LoopSyncReachable s'

theorem loopSync_reachable_inv (s : LoopSync) (h : LoopSyncReachable s) :
    s.running ≤ 1 ∧ (s.marker = false → s.running = 0) := by
  induction h with
  | init => exact ⟨by simp, fun _ => rfl⟩
  | step s s' _ hstep ih =>
      cases hstep with
      | enter hm =>
          have h0 : s.running = 0 := ih.2 hm
          exact ⟨by simp [h0], by intro hx; exact absurd hx (by simp)⟩
      | leave r hr =>
          have hr0 : r = 0 := by
            have h1 := ih.1
            omega
          exact ⟨by simp [hr0], fun _ => hr0⟩
      | reject hm => exact ih

/-- Claim C7: at most one task executes the worker loop body per Connection
at any time — in every reachable synchronization state the number of running
loop bodies is at most one — and any step taken while the exclusive-run
marker is held never increases the number of running bodies (a concurrent
start request is rejected or is a no-op). -/
theorem C7_exclusive_loop :
    (∀ s : LoopSync, LoopSyncReachable s → s.running ≤ 1) ∧
    (∀ s s' : LoopSync, LoopSyncStep s s' → s.marker = true →
      s'.running ≤ s.running) := by
  constructor
  · intro s h; exact (loopSync_reachable_inv s h).1
  · intro s s' hstep hm
    cases hstep with
    | enter hmf => rw [hmf] at hm; cases hm
    | leave r hr => simp [hr]
    | reject _ => exact Nat.le_refl _

theorem C7_witness :
    ({ marker := true, running := 1 } : LoopSync).running ≤ 1 :=
  C7_exclusive_loop.1 { marker := true, running := 1 }
    (LoopSyncReachable.step _ _ LoopSyncReachable.init
      (LoopSyncStep.enter _ rfl))

/-- Modelled from the spec: the PyRep value universe used by Exceptions.cpp
(PyString, PyInt, PyLong, PyFloat, PyDict, PyTuple); the PyRep declarations
are not in the sources.  A dictionary is a keyed list of entries, a tuple a
list of items. -/
inductive PyRep where
  | PyString (s : String)
  | PyInt (n : Int)
  | PyLong (n : Int)
  | PyFloat (v : Int)
  | PyDict (entries : List (String × PyRep))
  | PyTuple (items : List PyRep)

/-- Modelled from the spec: PyDict::SetItemString — binds name to value,
replacing an existing binding of the same key or else appending a new
entry. -/
def setStr (d : List (String × PyRep)) (name : String) (value : PyRep) :
    List (String × PyRep) :=
  match d with
  | [] => [(name, value)]
  | (k, v) :: rest =>
      if k = name then (k, value) :: rest else (k, v) :: setStr rest name value

/-- Modelled from the spec: keyword lookup in a keyed entry list (the body
of PyObjectEx::FindKeyword). -/
def findKey (d : List (String × PyRep)) (name : String) : Option PyRep :=
  match d with
  | [] => none
  | (k, v) :: rest => if k = name then some v else findKey rest name

/-- Modelled from the spec: PyRep::AsDict — the dictionary view of a value,
defined only on dictionaries (the C++ cast asserts IsDict). -/
def PyRep.asDict : PyRep → Option (List (String × PyRep))
  | PyRep.PyDict d => some d
  | _ => none

/-- Modelled from the spec: a PyObjectEx_Type1 object — a type name, the
args tuple and the keywords dictionary; the declaration is not in the
sources. -/
structure PyObjectEx1 where
  typeName : String
  args : List PyRep
  keywords : List (String × PyRep)

/-- Modelled from the spec: PyObjectEx::FindKeyword — looks a name up in the
keywords dictionary. -/
def FindKeyword (o : PyObjectEx1) (name : String) : Option PyRep :=
  findKey o.keywords name

/-- Modelled from the spec: constants from EVEVersion.h, which is not in the
sources; the claims do not depend on their values. -/
def EVEProjectRegion : String := "EVEmu"

/-- Modelled from the spec: see EVEProjectRegion. -/
def EVEVersionNumber : Int := 0

/-- Modelled from the spec: see EVEProjectRegion. -/
def EVEBuildVersion : Int := 0

/-- Modelled from the spec: see EVEProjectRegion. -/
def EVEProjectCodename : String := "EVEmu"

/-- Modelled from the spec: see EVEProjectRegion. -/
def MachoNetVersion : Int := 0

theorem findKey_setStr_self (d : List (String × PyRep)) (k : String) (v : PyRep) :
    findKey (setStr d k v) k = some v := by
  induction d with
  | nil => simp [setStr, findKey]
  | cons e rest ih =>
      obtain ⟨k0, v0⟩ := e
      by_cases hk : k0 = k
      · simp [setStr, hk, findKey]
      · simp [setStr, hk, findKey, ih]

/-- Applying a sequence of SetItemString calls to a dictionary. -/
def setStrAll : List (String × PyRep) → List (String × PyRep) →
    List (String × PyRep)
  | d, [] => d
  | d, (n, v) :: rest => setStrAll (setStr d n v) rest

namespace GPSTransportClosed

/-- GPSTransportClosed::_CreateArgs from Exceptions.cpp: a 1-tuple holding
the reason string. -/
def createArgs (reason : String) : List PyRep := [PyRep.PyString reason]

/-- GPSTransportClosed::_CreateKeywords from Exceptions.cpp: builds the
keywords dictionary with reasonArgs (an initially empty dictionary), clock,
region, reason, version, build, codename and machoVersion; now stands for
the Win32TimeNow() call. -/
def createKeywords (now : Int) (reason : String) : List (String × PyRep) :=
  setStr (setStr (setStr (setStr (setStr (setStr (setStr (setStr []
    "reasonArgs" (PyRep.PyDict []))
    "clock" (PyRep.PyLong now))
    "region" (PyRep.PyString EVEProjectRegion))
    "reason" (PyRep.PyString reason))
    "version" (PyRep.PyFloat EVEVersionNumber))
    "build" (PyRep.PyInt EVEBuildVersion))
    "codename" (PyRep.PyString EVEProjectCodename))
    "machoVersion" (PyRep.PyInt MachoNetVersion)

/-- The public GPSTransportClosed constructor from Exceptions.cpp: a
PyObjectEx_Type1 with type name "exceptions.GPSTransportClosed", the created
args tuple and the created keywords dictionary. -/
def make (now : Int) (reason : String) : PyObjectEx1 :=
  { typeName := "exceptions.GPSTransportClosed"
    args := createArgs reason
    keywords := createKeywords now reason }

/-- GPSTransportClosed::_GetReasonArgs from Exceptions.cpp: looks up the
reasonArgs keyword and views it as a dictionary; none models a fired
assert. -/
def getReasonArgs (o : PyObjectEx1) : Option (List (String × PyRep)) :=
  match FindKeyword o "reasonArgs" with
  | none => none
  | some r => r.asDict

/-- GPSTransportClosed::AddKeyword from Exceptions.cpp: records
(name, value) in the reasonArgs dictionary (the C++ code mutates the
referenced dictionary in place; here the updated dictionary is written back
under the reasonArgs key).  none models a fired assert. -/
def AddKeyword (o : PyObjectEx1) (name : String) (value : PyRep) :
    Option PyObjectEx1 :=
  match getReasonArgs o with
  | none => none
  | some d =>
      some
        { o with
          keywords :=
            setStr o.keywords "reasonArgs"
              (PyRep.PyDict (setStr d name value)) }

/-- A sequence of AddKeyword calls. -/
def addKeywords (o : PyObjectEx1) : List (String × PyRep) → Option PyObjectEx1
  | [] => some o
  | (n, v) :: rest =>
      match AddKeyword o n v with
      | none => none
      | some o' => addKeywords o' rest

theorem addKeywords_reasonArgs (kvs : List (String × PyRep)) :
    ∀ (o : PyObjectEx1) (d : List (String × PyRep)),
      findKey o.keywords "reasonArgs" = some (PyRep.PyDict d) →
      ∃ o', addKeywords o kvs = some o' ∧
        findKey o'.keywords "reasonArgs" =
          some (PyRep.PyDict (setStrAll d kvs)) := by
  induction kvs with
  | nil =>
      intro o d h
      exact ⟨o, rfl, by simpa [setStrAll] using h⟩
  | cons p rest ih =>
      obtain ⟨n, v⟩ := p
      intro o d h
      have hadd : AddKeyword o n v = some
          { o with
            keywords :=
              setStr o.keywords "reasonArgs"
                (PyRep.PyDict (setStr d n v)) } := by
        simp [AddKeyword, getReasonArgs, FindKeyword, h, PyRep.asDict]
      obtain ⟨o', h1, h2⟩ := ih
        { o with
          keywords :=
            setStr o.keywords "reasonArgs"
              (PyRep.PyDict (setStr d n v)) }
        (setStr d n v) (findKey_setStr_self _ _ _)
      refine ⟨o', ?_, by simpa [setStrAll] using h2⟩
      simp [addKeywords, hadd, h1]

end GPSTransportClosed

/-- Claim C9: every GPSTransportClosed built by the public constructor has a
keywords dictionary binding reasonArgs to an initially empty dictionary and
containing clock, region, reason (bound to the given reason), version,
build, codename and machoVersion; the FindKeyword lookup inside
_GetReasonArgs therefore succeeds (the assert never fires), so any sequence
of AddKeyword calls succeeds and records its pairs in the reasonArgs
dictionary. -/
theorem C9_gps_keywords (now : Int) (reason : String) :
    findKey (GPSTransportClosed.make now reason).keywords "reasonArgs" =
      some (PyRep.PyDict []) ∧
    findKey (GPSTransportClosed.make now reason).keywords "reason" =
      some (PyRep.PyString reason) ∧
    (findKey (GPSTransportClosed.make now reason).keywords "clock").isSome = true ∧
    (findKey (GPSTransportClosed.make now reason).keywords "region").isSome = true ∧
    (findKey (GPSTransportClosed.make now reason).keywords "version").isSome = true ∧
    (findKey (GPSTransportClosed.make now reason).keywords "build").isSome = true ∧
    (findKey (GPSTransportClosed.make now reason).keywords "codename").isSome = true ∧
    (findKey (GPSTransportClosed.make now reason).keywords "machoVersion").isSome = true ∧
    GPSTransportClosed.getReasonArgs (GPSTransportClosed.make now reason) =
      some [] ∧
    (∀ name : String, ∀ value : PyRep, ∃ o',
      GPSTransportClosed.AddKeyword (GPSTransportClosed.make now reason)
        name value = some o' ∧
      findKey o'.keywords "reasonArgs" =
        some (PyRep.PyDict [(name, value)])) ∧
    (∀ kvs : List (String × PyRep), ∃ o',
      GPSTransportClosed.addKeywords (GPSTransportClosed.make now reason)
        kvs = some o' ∧
      findKey o'.keywords "reasonArgs" =
        some (PyRep.PyDict (setStrAll [] kvs))) := by
  have hra : findKey (GPSTransportClosed.make now reason).keywords
      "reasonArgs" = some (PyRep.PyDict []) := rfl
  refine ⟨hra, rfl, rfl, rfl, rfl, rfl, rfl, rfl, rfl, ?_, ?_⟩
  · intro name value
    refine ⟨{ GPSTransportClosed.make now reason with
        keywords := setStr (GPSTransportClosed.make now reason).keywords
          "reasonArgs" (PyRep.PyDict (setStr [] name value)) }, ?_, ?_⟩
    · simp [GPSTransportClosed.AddKeyword, GPSTransportClosed.getReasonArgs,
        FindKeyword, hra, PyRep.asDict]
    · exact findKey_setStr_self _ _ _
  · intro kvs
    exact GPSTransportClosed.addKeywords_reasonArgs kvs _ [] hra

namespace UserError

/-- UserError::_CreateArgs from Exceptions.cpp: a 2-tuple holding the
message string and an empty dictionary. -/
def createArgs (msg : String) : List PyRep :=
  [PyRep.PyString msg, PyRep.PyDict []]

/-- UserError::_CreateKeywords from Exceptions.cpp: the keywords dictionary
with msg (the message string) and dict (an initially empty dictionary). -/
def createKeywords (msg : String) : List (String × PyRep) :=
  setStr (setStr [] "msg" (PyRep.PyString msg)) "dict" (PyRep.PyDict [])

/-- The public UserError constructor from Exceptions.cpp: a
PyObjectEx_Type1 with type name "ccp_exceptions.UserError", the created args
tuple and the created keywords dictionary. -/
def make (msg : String) : PyObjectEx1 :=
  { typeName := "ccp_exceptions.UserError"
    args := createArgs msg
    keywords := createKeywords msg }

/-- UserError::_GetTupleKeywords from Exceptions.cpp: the dictionary held as
element 1 of the args tuple; none models an out-of-range or non-dictionary
access. -/
def getTupleKeywords (o : PyObjectEx1) : Option (List (String × PyRep)) :=
  match o.args[1]? with
  | none => none
  | some a => a.asDict

/-- UserError::_GetDictKeywords from Exceptions.cpp: the dictionary bound to
the dict keyword; none models a fired assert. -/
def getDictKeywords (o : PyObjectEx1) : Option (List (String × PyRep)) :=
  match findKey o.keywords "dict" with
  | none => none
  | some r => r.asDict

/-- UserError::AddKeyword from Exceptions.cpp: inserts (name, value) into
both the tuple-held dictionary and the dict keyword dictionary (the C++ code
mutates the two referenced dictionaries in place; here the updated
dictionaries are written back). -/
def AddKeyword (o : PyObjectEx1) (name : String) (value : PyRep) :
    Option PyObjectEx1 :=
  match getTupleKeywords o, getDictKeywords o with
  | some td, some dd =>
      some
        { o with
          args := o.args.set 1 (PyRep.PyDict (setStr td name value))
          keywords :=
            setStr o.keywords "dict" (PyRep.PyDict (setStr dd name value)) }
  | _, _ => none

/-- A sequence of AddKeyword calls. -/
def addKeywords (o : PyObjectEx1) : List (String × PyRep) → Option PyObjectEx1
  | [] => some o
  | (n, v) :: rest =>
      match AddKeyword o n v with
      | none => none
      | some o' => addKeywords o' rest

theorem addKeywords_sync (kvs : List (String × PyRep)) :
    ∀ (o : PyObjectEx1) (a : PyRep) (d : List (String × PyRep)),
      o.args = [a, PyRep.PyDict d] →
      findKey o.keywords "dict" = some (PyRep.PyDict d) →
      ∃ o', addKeywords o kvs = some o' ∧
        o'.args = [a, PyRep.PyDict (setStrAll d kvs)] ∧
        findKey o'.keywords "dict" = some (PyRep.PyDict (setStrAll d kvs)) := by
  induction kvs with
  | nil =>
      intro o a d h1 h2
      exact ⟨o, rfl, by simpa [setStrAll] using h1,
        by simpa [setStrAll] using h2⟩
  | cons p rest ih =>
      obtain ⟨n, v⟩ := p
      intro o a d h1 h2
      have hT : getTupleKeywords o = some d := by
        simp [getTupleKeywords, h1, PyRep.asDict]
      have hD : getDictKeywords o = some d := by
        simp [getDictKeywords, h2, PyRep.asDict]
      have hargs : o.args.set 1 (PyRep.PyDict (setStr d n v)) =
          [a, PyRep.PyDict (setStr d n v)] := by
        rw [h1]; rfl
      have hadd : AddKeyword o n v = some
          { o with
            args := o.args.set 1 (PyRep.PyDict (setStr d n v))
            keywords :=
              setStr o.keywords "dict" (PyRep.PyDict (setStr d n v)) } := by
        simp [AddKeyword, hT, hD]
      obtain ⟨o', ho1, ho2, ho3⟩ := ih
        { o with
          args := o.args.set 1 (PyRep.PyDict (setStr d n v))
          keywords :=
            setStr o.keywords "dict" (PyRep.PyDict (setStr d n v)) }
        a (setStr d n v) (by simpa using hargs) (findKey_setStr_self _ _ _)
      refine ⟨o', ?_, by simpa [setStrAll] using ho2,
        by simpa [setStrAll] using ho3⟩
      simp [addKeywords, hadd, ho1]

end UserError

/-- Claim C10: a UserError built by the public constructor holds an empty
dictionary both as element 1 of the args tuple and under the dict keyword,
and every sequence of AddKeyword calls succeeds and inserts each pair into
both, so after any sequence the two dictionaries hold the same added
entries. -/
theorem C10_user_error_keyword_sync (msg : String)
    (kvs : List (String × PyRep)) :
    (UserError.make msg).args = [PyRep.PyString msg, PyRep.PyDict []] ∧
    findKey (UserError.make msg).keywords "dict" = some (PyRep.PyDict []) ∧
    (∃ o', UserError.addKeywords (UserError.make msg) kvs = some o' ∧
      o'.args = [PyRep.PyString msg, PyRep.PyDict (setStrAll [] kvs)] ∧
      findKey o'.keywords "dict" = some (PyRep.PyDict (setStrAll [] kvs))) := by
  exact ⟨rfl, rfl, UserError.addKeywords_sync kvs _ _ [] rfl rfl⟩
